import Mathlib

/-!
# Verification of the lighthouse pulse processor interface

Shallow embedding of `src/utils/interface/lighthouse/pulse_processor.h` from the
crazyflie firmware, together with proofs of the specified properties.

The header contains one implemented function, `TS_DIFF`, which is embedded
directly from the source.  The remaining operations (`pulseProcessorClear`,
`pulseProcessorApplyCalibration` and the `processPulse` pipelines for the V1
and V2 base-station protocols) are only declared in the examined sources; their
behaviour is modelled from the specification, as indicated in the doc comment
of each such definition.

Machine integers are embedded as `Nat` with explicit reduction modulo `2 ^ w`
where overflow matters.  Angles, which the C code stores as `float`, are
embedded as `ℚ`: no claim depends on floating-point rounding, only on which
entries are written, cleared or left untouched.
-/

/-! ## Constants from the source header -/

def PULSE_PROCESSOR_N_SWEEPS : Nat := 2

def PULSE_PROCESSOR_N_BASE_STATIONS : Nat := 2

def PULSE_PROCESSOR_N_SENSORS : Nat := 4

def PULSE_PROCESSOR_HISTORY_LENGTH : Nat := 8

def PULSE_PROCESSOR_TIMESTAMP_BITWIDTH : Nat := 24

def PULSE_PROCESSOR_TIMESTAMP_MAX : Nat := (1 <<< PULSE_PROCESSOR_TIMESTAMP_BITWIDTH) - 1

/-- The modulus of C `uint32_t` arithmetic. -/
def UINT32_MOD : Nat := 2 ^ 32

/-- C `uint32_t` subtraction: both operands reduced modulo `2 ^ 32`, the
difference wraps modulo `2 ^ 32`. -/
def uint32_sub (x y : Nat) : Nat :=
  (x % UINT32_MOD + (UINT32_MOD - y % UINT32_MOD)) % UINT32_MOD

/-- Embedding of `TS_DIFF` from the source:
`uint32_t bitmask = (1 << PULSE_PROCESSOR_TIMESTAMP_BITWIDTH) - 1;
 return (x - y) & bitmask;`
where `x - y` is `uint32_t` subtraction. -/
def TS_DIFF (x y : Nat) : Nat :=
  let bitmask : Nat := (1 <<< PULSE_PROCESSOR_TIMESTAMP_BITWIDTH) - 1
  uint32_sub x y &&& bitmask

theorem TS_DIFF_eq_mod (x y : Nat) :
    TS_DIFF x y = uint32_sub x y % 2 ^ 24 := by
  have h : (1 <<< PULSE_PROCESSOR_TIMESTAMP_BITWIDTH) - 1 = 2 ^ 24 - 1 := by
    simp [PULSE_PROCESSOR_TIMESTAMP_BITWIDTH, Nat.shiftLeft_eq]
  simp only [TS_DIFF, h]
  exact Nat.and_pow_two_sub_one_eq_mod _ 24

/-- Claim C1: for every pair of 32-bit timestamps `x` and `y`, `TS_DIFF(x, y)`
equals `(x - y) mod 2^24` (integer subtraction, euclidean mod) and lies in
`[0, 2^24)`; in particular `TS_DIFF(x, x) = 0` and
`TS_DIFF(0, 2^24 - 1) = 1`. -/
theorem ts_diff_spec (x y : Nat) (hx : x < 2 ^ 32) (hy : y < 2 ^ 32) :
    ((TS_DIFF x y : Int) = ((x : Int) - (y : Int)) % 2 ^ 24 ∧ TS_DIFF x y < 2 ^ 24)
      ∧ TS_DIFF x x = 0 ∧ TS_DIFF 0 (2 ^ 24 - 1) = 1 := by
  have e1 := TS_DIFF_eq_mod x y
  have e2 := TS_DIFF_eq_mod x x
  have e3 := TS_DIFF_eq_mod 0 (2 ^ 24 - 1)
  simp only [uint32_sub, UINT32_MOD] at e1 e2 e3
  refine ⟨⟨?_, ?_⟩, ?_, ?_⟩ <;> omega

/-- Witness for `ts_diff_spec` at `x = 3, y = 5`:
`TS_DIFF 3 5 = 2^24 - 2`. -/
theorem ts_diff_spec_witness :
    ((TS_DIFF 3 5 : Int) = ((3 : Int) - (5 : Int)) % 2 ^ 24 ∧ TS_DIFF 3 5 < 2 ^ 24)
      ∧ TS_DIFF 3 3 = 0 ∧ TS_DIFF 0 (2 ^ 24 - 1) = 1 :=
  ts_diff_spec 3 5 (by norm_num) (by norm_num)

/-- Claim C10: `TS_DIFF` is total over the full 32-bit range and its result
depends only on the low 24 bits of each argument. -/
theorem ts_diff_low_bits (x y : Nat) (hx : x < 2 ^ 32) (hy : y < 2 ^ 32) :
    TS_DIFF x y = TS_DIFF (x % 2 ^ 24) (y % 2 ^ 24) := by
  have e1 := TS_DIFF_eq_mod x y
  have e2 := TS_DIFF_eq_mod (x % 2 ^ 24) (y % 2 ^ 24)
  simp only [uint32_sub, UINT32_MOD] at e1 e2
  omega

/-- Witness for `ts_diff_low_bits` at `x = 2^24 + 7, y = 2^25 + 3`. -/
theorem ts_diff_low_bits_witness :
    TS_DIFF (2 ^ 24 + 7) (2 ^ 25 + 3) = TS_DIFF ((2 ^ 24 + 7) % 2 ^ 24) ((2 ^ 25 + 3) % 2 ^ 24) :=
  ts_diff_low_bits (2 ^ 24 + 7) (2 ^ 25 + 3) (by norm_num) (by norm_num)

/-! ## Data model from the source header

Sensors are indexed by `Fin 4` (`PULSE_PROCESSOR_N_SENSORS`), base stations by
`Fin 2` (`PULSE_PROCESSOR_N_BASE_STATIONS`) and sweep axes by `Fin 2`
(`PULSE_PROCESSOR_N_SWEEPS`, the x/y `SweepDirection`).  Field names follow the
source, including its `baseStatonMeasurements` spelling. -/

/-- One V1 pulse in the history ring: `timestamp` and `width`. -/
structure pulseProcessorPulse_t where
  timestamp : Nat
  width : Nat
deriving DecidableEq

/-- Classification of one V1 pulse (`enum pulseClass_e`). -/
inductive pulseClass_e where
  | unknown
  | sync0
  | sync1
  | sweep
deriving DecidableEq

/-- Storage state of one collected sweep (`SweepStorageState_t`). -/
inductive SweepStorageState_t where
  | sweepStorageStateWaiting
  | sweepStorageStateValid
  | sweepStorageStateError
deriving DecidableEq

/-- Holds data for one sweep and one sensor (`pulseProcessorV2Pulse_t`). -/
structure pulseProcessorV2Pulse_t where
  timestamp : Nat
  offset : Nat
  channel : Nat
  slowbit : Nat
  /-- Indicates if channel and slowbit are valid. -/
  channelFound : Bool
  /-- Indicates that the data in this struct has been set. -/
  isSet : Bool
deriving DecidableEq

/-- Per-sensor V2 pulse slots plus the latest timestamp seen
(`pulseProcessorV2PulseWorkspace_t`). -/
structure pulseProcessorV2PulseWorkspace_t where
  sensors : Fin 4 → pulseProcessorV2Pulse_t
  latestTimestamp : Nat
deriving DecidableEq

/-- Holds derived data for one sweep through all sensors
(`pulseProcessorV2SweepBlock_t`); `timestamp` is the timestamp of sensor 0. -/
structure pulseProcessorV2SweepBlock_t where
  offset : Fin 4 → Nat
  timestamp : Nat
  channel : Nat
  slowbit : Nat
deriving DecidableEq

/-- Measurement for one sensor and one base station
(`pulseProcessorBaseStationMeasuremnt_t`): raw and calibrated angles per sweep
axis and the number of populated axes. -/
structure pulseProcessorBaseStationMeasuremnt_t where
  angles : Fin 2 → ℚ
  correctedAngles : Fin 2 → ℚ
  validCount : Nat
deriving DecidableEq

/-- Measurements of one sensor for all base stations
(`pulseProcessorSensorMeasurement_t`). -/
structure pulseProcessorSensorMeasurement_t where
  baseStatonMeasurements : Fin 2 → pulseProcessorBaseStationMeasuremnt_t
deriving DecidableEq

/-- The output structure (`pulseProcessorResult_t`): sensor → base station →
measurement. -/
structure pulseProcessorResult_t where
  sensorMeasurements : Fin 4 → pulseProcessorSensorMeasurement_t
deriving DecidableEq

/-- The measurement of sensor `s` for base station `b` in `r`. -/
def pulseProcessorResult_t.meas (r : pulseProcessorResult_t) (s : Fin 4) (b : Fin 2) :
    pulseProcessorBaseStationMeasuremnt_t :=
  (r.sensorMeasurements s).baseStatonMeasurements b

/-- One frame delivered by the driver (`pulseProcessorFrame_t`): sensor,
timestamp, the V1 `width` payload and the V2
`beamData`/`offset`/`channel`/`slowbit`/`channelFound` payload. -/
structure pulseProcessorFrame_t where
  sensor : Fin 4
  timestamp : Nat
  width : Nat
  beamData : Nat
  offset : Nat
  channel : Nat
  slowbit : Nat
  channelFound : Bool
deriving DecidableEq

/-! ## Result lifecycle operations

The bodies of `pulseProcessorClear` and `pulseProcessorApplyCalibration` are
not part of the examined sources (the header only declares them), so they are
modelled from the specification. -/

/-- Modelled from the spec: the body of `pulseProcessorClear` is missing from
the examined sources.  Per the spec, `clear(result, baseStation)` resets
`validCount` to 0 and zeroes both angle arrays for every sensor's measurement
of that base station, leaving other base stations untouched. -/
def pulseProcessorClear (angles : pulseProcessorResult_t) (baseStation : Fin 2) :
    pulseProcessorResult_t :=
  { sensorMeasurements := fun s =>
      { baseStatonMeasurements := fun b =>
          if b = baseStation then
            { angles := fun _ => 0, correctedAngles := fun _ => 0, validCount := 0 }
          else (angles.sensorMeasurements s).baseStatonMeasurements b } }

/-- Modelled from the spec: the body of `pulseProcessorApplyCalibration` is
missing from the examined sources.  The calibration model
(`lighthouseCalibration_t`, stored in the processor state) is an external
collaborator, assumed pure and total; it is embedded as the function argument
`calib : baseStation → axis → rawAngle → correctedAngle`.  Per the spec, for
every sensor with `validCount ≥ 1` in `result` for that base station the
transform is applied to each valid raw angle, writing `correctedAngles`;
entries with `validCount == 0` are left untouched. -/
def pulseProcessorApplyCalibration (calib : Fin 2 → Fin 2 → ℚ → ℚ)
    (angles : pulseProcessorResult_t) (baseStation : Fin 2) : pulseProcessorResult_t :=
  { sensorMeasurements := fun s =>
      { baseStatonMeasurements := fun b =>
          let m := (angles.sensorMeasurements s).baseStatonMeasurements b
          if b = baseStation ∧ 1 ≤ m.validCount then
            { m with correctedAngles := fun ax =>
                if ax.val < m.validCount then calib baseStation ax (m.angles ax)
                else m.correctedAngles ax }
          else m } }

/-- Modelled from the spec: storing one completed sweep angle for one axis of
one measurement.  `validCount` counts the populated axes (at most
`PULSE_PROCESSOR_N_SWEEPS = 2`). -/
def storeSweepAngle (m : pulseProcessorBaseStationMeasuremnt_t) (ax : Fin 2) (v : ℚ) :
    pulseProcessorBaseStationMeasuremnt_t :=
  { angles := Function.update m.angles ax v
    correctedAngles := m.correctedAngles
    validCount := min (m.validCount + 1) 2 }

attribute [ext] pulseProcessorBaseStationMeasuremnt_t
attribute [ext] pulseProcessorSensorMeasurement_t
attribute [ext] pulseProcessorResult_t

/-- Claim C3: `clear(result, baseStation)` sets `validCount` to 0 and zeroes
both angle arrays in every sensor's measurement of that base station, and
leaves the measurements of every other base station unchanged. -/
theorem pulseProcessorClear_spec (r : pulseProcessorResult_t) (bs : Fin 2) :
    (∀ s : Fin 4,
        ((pulseProcessorClear r bs).meas s bs).validCount = 0
          ∧ ∀ ax : Fin 2, ((pulseProcessorClear r bs).meas s bs).angles ax = 0
          ∧ ((pulseProcessorClear r bs).meas s bs).correctedAngles ax = 0)
      ∧ ∀ (s : Fin 4) (b : Fin 2), b ≠ bs →
          (pulseProcessorClear r bs).meas s b = r.meas s b := by
  constructor
  · intro s
    refine ⟨?_, fun ax => ⟨?_, ?_⟩⟩ <;>
      simp [pulseProcessorClear, pulseProcessorResult_t.meas]
  · intro s b hb
    simp [pulseProcessorClear, pulseProcessorResult_t.meas, hb]

/-- A concrete example measurement used by witnesses. -/
def exampleMeas : pulseProcessorBaseStationMeasuremnt_t :=
  { angles := fun ax => (ax.val : ℚ) + 1
    correctedAngles := fun ax => (ax.val : ℚ) + 3
    validCount := 1 }

/-- A concrete example result used by witnesses: sensor `s`, base station `b`
holds `exampleMeas` with `validCount` 1 on base station 0 and 0 on base
station 1. -/
def exampleResult : pulseProcessorResult_t :=
  { sensorMeasurements := fun _ =>
      { baseStatonMeasurements := fun b =>
          { exampleMeas with validCount := if b = 0 then 1 else 0 } } }

/-- Witness for `pulseProcessorClear_spec`: clearing base station 0 of the
example result leaves base station 1 unchanged. -/
theorem pulseProcessorClear_spec_witness :
    (pulseProcessorClear exampleResult 0).meas 2 1 = exampleResult.meas 2 1 :=
  (pulseProcessorClear_spec exampleResult 0).2 2 1 (by decide)

/-- Two results are equal when all their measurements are. -/
theorem result_ext_meas {x y : pulseProcessorResult_t}
    (h : ∀ (s : Fin 4) (b : Fin 2), x.meas s b = y.meas s b) : x = y :=
  pulseProcessorResult_t.ext (funext fun s =>
    pulseProcessorSensorMeasurement_t.ext (funext fun b => h s b))

/-- Claim C7: clearing the same base station twice is the same as clearing it
once, and after one call `validCount = 0` holds for every sensor's measurement
of that base station. -/
theorem pulseProcessorClear_idempotent (r : pulseProcessorResult_t) (bs : Fin 2) :
    pulseProcessorClear (pulseProcessorClear r bs) bs = pulseProcessorClear r bs
      ∧ ∀ s : Fin 4, ((pulseProcessorClear r bs).meas s bs).validCount = 0 := by
  constructor
  · apply result_ext_meas
    intro s b
    by_cases hb : b = bs <;>
      simp [pulseProcessorClear, pulseProcessorResult_t.meas, hb]
  · intro s
    simp [pulseProcessorClear, pulseProcessorResult_t.meas]

/-- Claim C4: `applyCalibration` applies the calibration transform to each
valid raw angle of every sensor whose measurement for the base station has
`validCount ≥ 1`, writing `correctedAngles`, and leaves every entry with
`validCount = 0` (and every other base station) bit-for-bit unchanged. -/
theorem pulseProcessorApplyCalibration_spec (calib : Fin 2 → Fin 2 → ℚ → ℚ)
    (r : pulseProcessorResult_t) (bs : Fin 2) :
    (∀ (s : Fin 4) (b : Fin 2), b ≠ bs →
        (pulseProcessorApplyCalibration calib r bs).meas s b = r.meas s b)
      ∧ (∀ s : Fin 4, (r.meas s bs).validCount = 0 →
          (pulseProcessorApplyCalibration calib r bs).meas s bs = r.meas s bs)
      ∧ (∀ s : Fin 4, 1 ≤ (r.meas s bs).validCount →
          ((pulseProcessorApplyCalibration calib r bs).meas s bs).angles
              = (r.meas s bs).angles
            ∧ ((pulseProcessorApplyCalibration calib r bs).meas s bs).validCount
              = (r.meas s bs).validCount
            ∧ ∀ ax : Fin 2,
                (ax.val < (r.meas s bs).validCount →
                  ((pulseProcessorApplyCalibration calib r bs).meas s bs).correctedAngles ax
                    = calib bs ax ((r.meas s bs).angles ax))
                ∧ (¬ ax.val < (r.meas s bs).validCount →
                  ((pulseProcessorApplyCalibration calib r bs).meas s bs).correctedAngles ax
                    = (r.meas s bs).correctedAngles ax)) := by
  refine ⟨?_, ?_, ?_⟩
  · intro s b hb
    simp [pulseProcessorApplyCalibration, pulseProcessorResult_t.meas, hb]
  · intro s h0
    simp only [pulseProcessorResult_t.meas] at h0
    simp [pulseProcessorApplyCalibration, pulseProcessorResult_t.meas, h0]
  · intro s h1
    simp only [pulseProcessorResult_t.meas] at h1
    refine ⟨?_, ?_, fun ax => ⟨fun hax => ?_, fun hax => ?_⟩⟩
    · simp [pulseProcessorApplyCalibration, pulseProcessorResult_t.meas, h1]
    · simp [pulseProcessorApplyCalibration, pulseProcessorResult_t.meas, h1]
    · simp only [pulseProcessorResult_t.meas] at hax
      simp [pulseProcessorApplyCalibration, pulseProcessorResult_t.meas, h1, hax]
    · simp only [pulseProcessorResult_t.meas] at hax
      simp [pulseProcessorApplyCalibration, pulseProcessorResult_t.meas, h1, hax]

/-- Witness for `pulseProcessorApplyCalibration_spec` with the doubling
calibration on the example result: base station 1 (`validCount = 0`) is
unchanged and the valid raw angle of base station 0 is doubled. -/
theorem pulseProcessorApplyCalibration_spec_witness :
    (pulseProcessorApplyCalibration (fun _ _ v => 2 * v) exampleResult 1).meas 1 1
        = exampleResult.meas 1 1
      ∧ ((pulseProcessorApplyCalibration (fun _ _ v => 2 * v) exampleResult 0).meas 1 0).correctedAngles 0
        = 2 * ((exampleResult.meas 1 0).angles 0) :=
  ⟨(pulseProcessorApplyCalibration_spec (fun _ _ v => 2 * v) exampleResult 1).2.1 1
      (by decide),
   (((pulseProcessorApplyCalibration_spec (fun _ _ v => 2 * v) exampleResult 0).2.2 1
      (by decide)).2.2 0).1 (by decide)⟩

/-! ## V2 pipeline

The V2 processing routines are only declared in the examined sources; they are
modelled from the specification (§4.4): every pulse is self-describing, each
incoming pulse overwrites its sensor's workspace slot and updates
`latestTimestamp`; a sweep block is emitted only for a pulse whose channel
decoding succeeded (`channelFound`), folding the populated in-window slots;
stale entries are dropped rather than merged; the block's representative
timestamp is sensor 0's. -/

/-- Tunable constants of the V2 pipeline.  The spec leaves the exact numeric
thresholds open (design note: calibration constants, not present in the
examined material), so they are parameters: `sweepWindow` is the maximal age,
in timestamp ticks, of a workspace entry that still belongs to the current
sweep; older entries are stale. -/
structure V2Params where
  sweepWindow : Nat

/-- The V2 half of the processor state: the per-sensor pulse workspace and the
refined sweep blocks per base station (fields `pulseWorkspace` and `blocksV2`
of `pulseProcessor_t`). -/
structure pulseProcessorV2State where
  pulseWorkspace : pulseProcessorV2PulseWorkspace_t
  blocksV2 : Fin 2 → pulseProcessorV2SweepBlock_t
deriving DecidableEq

/-- Modelled from the spec: an incoming pulse overwrites its sensor's workspace
slot (`isSet = true`) and updates `latestTimestamp`. -/
def storeSlot (w : pulseProcessorV2PulseWorkspace_t) (f : pulseProcessorFrame_t) :
    pulseProcessorV2PulseWorkspace_t :=
  { sensors := Function.update w.sensors f.sensor
      { timestamp := f.timestamp, offset := f.offset, channel := f.channel,
        slowbit := f.slowbit, channelFound := f.channelFound, isSet := true }
    latestTimestamp := f.timestamp }

/-- A workspace slot is fresh when it is set and not older than the latest
timestamp by more than one sweep period. -/
def slotFresh (P : V2Params) (w : pulseProcessorV2PulseWorkspace_t) (i : Fin 4) : Bool :=
  (w.sensors i).isSet && decide (TS_DIFF w.latestTimestamp (w.sensors i).timestamp ≤ P.sweepWindow)

/-- Modelled from the spec: folding the workspace into a sweep block.  The fold
succeeds when sensor 0 is populated in-window with a decoded channel (the
block's representative timestamp, channel and slowbit are sensor 0's) and all
populated in-window slots carry the same decoded channel; it fails otherwise
(never guessing an ambiguous classification). -/
def foldWorkspace (P : V2Params) (w : pulseProcessorV2PulseWorkspace_t) :
    Option pulseProcessorV2SweepBlock_t :=
  if slotFresh P w 0 && (w.sensors 0).channelFound
      && decide (∀ i : Fin 4, slotFresh P w i = true →
          (w.sensors i).channelFound = true ∧ (w.sensors i).channel = (w.sensors 0).channel)
  then
    some { offset := fun i => if slotFresh P w i then (w.sensors i).offset else 0
           timestamp := (w.sensors 0).timestamp
           channel := (w.sensors 0).channel
           slowbit := (w.sensors 0).slowbit }
  else none

/-- Modelled from the spec: `channel` is the 0-indexed identity of the emitting
(base station, axis) combination; with two base stations and two sweep axes the
encoding is base station `channel / 2`, axis `channel % 2`, reduced into
range. -/
def channelBaseStation (c : Nat) : Fin 2 :=
  ⟨c / 2 % 2, by omega⟩

/-- The sweep axis encoded in a V2 channel; see `channelBaseStation`. -/
def channelAxis (c : Nat) : Fin 2 :=
  ⟨c % 2, by omega⟩

/-- Modelled from the spec: workspace entries are consumed (`isSet = false`)
once folded into a sweep block, and stale entries are dropped with them. -/
def consumeWorkspace (w : pulseProcessorV2PulseWorkspace_t) :
    pulseProcessorV2PulseWorkspace_t :=
  { w with sensors := fun i => { w.sensors i with isSet := false } }

/-- Modelled from the spec: stale workspace entries (older than the latest
timestamp by more than one sweep period) are dropped rather than merged. -/
def dropStale (P : V2Params) (w : pulseProcessorV2PulseWorkspace_t) :
    pulseProcessorV2PulseWorkspace_t :=
  { w with sensors := fun i =>
      if (w.sensors i).isSet && !slotFresh P w i then { w.sensors i with isSet := false }
      else w.sensors i }

/-- Modelled from the spec: the mapping from a V2 pulse offset (the phase
within the sweep) to an angle is linear but its scale is not given by the
examined material; it is represented by the raw offset value. -/
def v2AngleFromOffset (offset : Nat) : ℚ :=
  (offset : ℚ)

/-- Modelled from the spec: writing an emitted sweep block into the result.
The base station and axis are decoded from the block's channel; a block for
axis 0 starts a new frame for its base station, so the base station is cleared
first; the angle of every sensor populated in the folded workspace is then
stored for that axis. -/
def emitResult (P : V2Params) (w : pulseProcessorV2PulseWorkspace_t)
    (blk : pulseProcessorV2SweepBlock_t) (r : pulseProcessorResult_t) :
    pulseProcessorResult_t :=
  let bs := channelBaseStation blk.channel
  let ax := channelAxis blk.channel
  let base := if ax = 0 then pulseProcessorClear r bs else r
  { sensorMeasurements := fun s =>
      { baseStatonMeasurements := fun b =>
          let m := (base.sensorMeasurements s).baseStatonMeasurements b
          if b = bs ∧ slotFresh P w s = true then
            storeSweepAngle m ax (v2AngleFromOffset (blk.offset s))
          else m } }

/-- Modelled from the spec: processing one V2 frame.  The pulse always
overwrites its sensor's workspace slot; if its channel was decoded
(`channelFound`) the workspace is folded into a sweep block when possible, the
block is stored for its base station, the angles of the populated sensors are
written into the result and the consumed entries are cleared; otherwise only
internal state changes.  Returns the new state, the new result and the
completed (base station, axis) if any. -/
def processPulseV2 (P : V2Params) (st : pulseProcessorV2State)
    (f : pulseProcessorFrame_t) (r : pulseProcessorResult_t) :
    pulseProcessorV2State × pulseProcessorResult_t × Option (Fin 2 × Fin 2) :=
  let w := storeSlot st.pulseWorkspace f
  if f.channelFound then
    match foldWorkspace P w with
    | some blk =>
        let bs := channelBaseStation blk.channel
        let ax := channelAxis blk.channel
        ({ pulseWorkspace := consumeWorkspace w
           blocksV2 := Function.update st.blocksV2 bs blk },
         emitResult P w blk r, some (bs, ax))
    | none =>
        ({ st with pulseWorkspace := dropStale P w }, r, none)
  else
    ({ st with pulseWorkspace := w }, r, none)

/-- Processing a list of V2 frames in order, collecting the emitted
(base station, axis) completions. -/
def processFramesV2 (P : V2Params) (st : pulseProcessorV2State)
    (r : pulseProcessorResult_t) :
    List pulseProcessorFrame_t →
      pulseProcessorV2State × pulseProcessorResult_t × List (Fin 2 × Fin 2)
  | [] => (st, r, [])
  | f :: fs =>
      let step := processPulseV2 P st f r
      let rest := processFramesV2 P step.1 step.2.1 fs
      (rest.1, rest.2.1, step.2.2.toList ++ rest.2.2)

/-- Claim C5: in the V2 pipeline a pulse with `channelFound = false` never
completes a sweep block and never increments `validCount`: such a frame yields
no emission and leaves the result (hence every `validCount`) unchanged, and a
sequence of such frames yields no emissions and leaves the result unchanged. -/
theorem processPulseV2_channelNotFound (P : V2Params) :
    (∀ (st : pulseProcessorV2State) (f : pulseProcessorFrame_t) (r : pulseProcessorResult_t),
        f.channelFound = false →
          (processPulseV2 P st f r).2.2 = none ∧ (processPulseV2 P st f r).2.1 = r)
      ∧ ∀ (st : pulseProcessorV2State) (r : pulseProcessorResult_t)
          (fs : List pulseProcessorFrame_t),
          (∀ f ∈ fs, f.channelFound = false) →
            (processFramesV2 P st r fs).2.2 = [] ∧ (processFramesV2 P st r fs).2.1 = r := by
  have single : ∀ (st : pulseProcessorV2State) (f : pulseProcessorFrame_t)
      (r : pulseProcessorResult_t), f.channelFound = false →
        (processPulseV2 P st f r).2.2 = none ∧ (processPulseV2 P st f r).2.1 = r := by
    intro st f r h
    simp [processPulseV2, h]
  refine ⟨single, ?_⟩
  intro st r fs
  induction fs generalizing st r with
  | nil => intro _; simp [processFramesV2]
  | cons f fs ih =>
      intro h
      have hf := h f (List.mem_cons_self f fs)
      have hstep := single st f r hf
      have hrest := ih (processPulseV2 P st f r).1 (processPulseV2 P st f r).2.1
        (fun g hg => h g (List.mem_cons_of_mem f hg))
      simp only [processFramesV2]
      refine ⟨?_, ?_⟩
      · rw [hstep.1]
        simpa using hrest.1
      · rw [hrest.2, hstep.2]

/-- Example V2 parameters used by witnesses: one sweep period of 1000 ticks. -/
def exampleV2Params : V2Params :=
  ⟨1000⟩

/-- The empty V2 workspace: no slot set. -/
def emptyWorkspace : pulseProcessorV2PulseWorkspace_t :=
  { sensors := fun _ =>
      { timestamp := 0, offset := 0, channel := 0, slowbit := 0,
        channelFound := false, isSet := false }
    latestTimestamp := 0 }

/-- A decoded V2 frame on sensor 0: timestamp 100, offset 7, channel 2. -/
def exampleFrame0 : pulseProcessorFrame_t :=
  { sensor := 0, timestamp := 100, width := 0, beamData := 0, offset := 7,
    channel := 2, slowbit := 0, channelFound := true }

/-- The same pulse data observed on sensor 1 at timestamp 150. -/
def exampleFrame1 : pulseProcessorFrame_t :=
  { exampleFrame0 with sensor := 1, timestamp := 150 }

/-- A frame on sensor 2 whose channel decoding failed. -/
def exampleFrameNoChannel : pulseProcessorFrame_t :=
  { exampleFrame0 with sensor := 2, timestamp := 200, channelFound := false }

/-- The workspace after storing `exampleFrame0` then `exampleFrame1`. -/
def exampleWorkspace : pulseProcessorV2PulseWorkspace_t :=
  storeSlot (storeSlot emptyWorkspace exampleFrame0) exampleFrame1

/-- The empty V2 processor state. -/
def emptyV2State : pulseProcessorV2State :=
  { pulseWorkspace := emptyWorkspace
    blocksV2 := fun _ => { offset := fun _ => 0, timestamp := 0, channel := 0, slowbit := 0 } }

/-- Witness for `processPulseV2_channelNotFound`: a frame without a decoded
channel, alone and repeated, emits nothing and leaves the example result
unchanged. -/
theorem processPulseV2_channelNotFound_witness :
    ((processPulseV2 exampleV2Params emptyV2State exampleFrameNoChannel exampleResult).2.2 = none
        ∧ (processPulseV2 exampleV2Params emptyV2State exampleFrameNoChannel exampleResult).2.1
            = exampleResult)
      ∧ (processFramesV2 exampleV2Params emptyV2State exampleResult
            [exampleFrameNoChannel, exampleFrameNoChannel]).2.2 = []
      ∧ (processFramesV2 exampleV2Params emptyV2State exampleResult
            [exampleFrameNoChannel, exampleFrameNoChannel]).2.1 = exampleResult :=
  ⟨(processPulseV2_channelNotFound exampleV2Params).1 emptyV2State exampleFrameNoChannel
      exampleResult (by decide),
   (processPulseV2_channelNotFound exampleV2Params).2 emptyV2State exampleResult
      [exampleFrameNoChannel, exampleFrameNoChannel] (by decide)⟩

/-- Claim C6: every completed V2 sweep block carries the representative
timestamp of sensor 0: whenever the workspace folds into a block, the block's
timestamp is the sensor-0 slot's timestamp. -/
theorem foldWorkspace_timestamp (P : V2Params) (w : pulseProcessorV2PulseWorkspace_t)
    (blk : pulseProcessorV2SweepBlock_t) (h : foldWorkspace P w = some blk) :
    blk.timestamp = (w.sensors 0).timestamp := by
  unfold foldWorkspace at h
  split at h
  · cases h
    rfl
  · cases h

/-- The block folded from `exampleWorkspace` (offsets 7 on sensors 0 and 1,
sensor 0's timestamp 100, channel 2), extracted from the fold itself. -/
def exampleBlock : pulseProcessorV2SweepBlock_t :=
  (foldWorkspace exampleV2Params exampleWorkspace).getD
    { offset := fun _ => 0, timestamp := 0, channel := 0, slowbit := 0 }

/-- Witness for `foldWorkspace_timestamp`: pulses of identical channel and
offset on sensors 0 and 1 with timestamps 100 and 150 fold into a block whose
timestamp is sensor 0's 100, not sensor 1's 150. -/
theorem foldWorkspace_timestamp_witness :
    exampleBlock.timestamp = (exampleWorkspace.sensors 0).timestamp
      ∧ (exampleWorkspace.sensors 0).timestamp = 100
      ∧ (exampleWorkspace.sensors 1).timestamp = 150 :=
  ⟨foldWorkspace_timestamp exampleV2Params exampleWorkspace exampleBlock (by rfl),
   by rfl, by rfl⟩

/-! ## V1 pipeline

The V1 processing routines are only declared in the examined sources; they are
modelled from the specification (§4.2–4.3): a per-sensor pulse-history ring
feeds a width-based classifier; sync pulses are clustered and averaged into the
current sync estimate; when synchronized, a sweep pulse's elapsed ticks since
`currentSync0` map linearly to an angle across the current frame width, the
angle is written into the result and the call reports the current
(base station, axis). -/

/-- One collected sweep slot of the processor state (an entry of the `sweeps`
array of `pulseProcessor_t`). -/
structure sweepStorage_t where
  timestamp : Nat
  state : SweepStorageState_t
deriving DecidableEq

/-- The V1 half of the processor state, with the fields of the V1 branch of
the `pulseProcessor_t` union plus the shared current-frame and sweep-storage
fields (used only by V1 in this model). -/
structure pulseProcessorV1State where
  synchronized : Bool
  basestationsSynchronizedCount : Nat
  pulseHistory : Fin 4 → Fin 8 → pulseProcessorPulse_t
  pulseHistoryIdx : Fin 4 → Fin 8
  lastSync : Nat
  currentSyncSum : Nat
  nSyncPulses : Nat
  currentSync : Nat
  currentSync0 : Nat
  currentSync0Width : Nat
  currentSync1Width : Nat
  currentSync0X : Nat
  currentSync0Y : Nat
  currentSync1X : Nat
  currentSync1Y : Nat
  frameWidth : Fin 2 → Fin 2 → ℚ
  currentBaseStation : Fin 2
  currentAxis : Fin 2
  sweeps : Fin 4 → sweepStorage_t
  sweepDataStored : Bool
deriving DecidableEq

/-- Tunable constants and unspecified sub-functions of the V1 pipeline.  The
spec leaves the exact numeric thresholds open (minimum cluster size, timestamp
spread tolerance, the width thresholds of the classifier, the width decoding
of base station and axis, and the frame-width recalibration), so they are
parameters: `classify` maps a sensor's pulse history and the new pulse to a
pulse class, `clusterTolerance` bounds the timestamp spread inside one sync
cluster, `minClusterSize` is the number of samples needed to trust a cluster,
`syncWindow` is the expected window around `currentSync` when synchronized,
`decodeBsAxis` decodes a sync width into (base station, axis) and
`frameWidthOf` recalibrates the frame width from the two sync widths. -/
structure V1Params where
  classify : List pulseProcessorPulse_t → pulseProcessorPulse_t → pulseClass_e
  clusterTolerance : Nat
  minClusterSize : Nat
  syncWindow : Nat
  decodeBsAxis : Nat → Fin 2 × Fin 2
  frameWidthOf : Nat → Nat → ℚ

/-- Modelled from the spec: the pulse-history ring of one sensor, overwriting
the oldest entry (circular, fixed capacity 8). -/
def pushHistory (st : pulseProcessorV1State) (sensor : Fin 4) (p : pulseProcessorPulse_t) :
    pulseProcessorV1State :=
  { st with
    pulseHistory := fun s =>
      if s = sensor then Function.update (st.pulseHistory s) (st.pulseHistoryIdx s) p
      else st.pulseHistory s
    pulseHistoryIdx := Function.update st.pulseHistoryIdx sensor (st.pulseHistoryIdx sensor + 1) }

/-- The pulse history of one sensor as a list, oldest first. -/
def historyList (st : pulseProcessorV1State) (sensor : Fin 4) : List pulseProcessorPulse_t :=
  (List.finRange 8).map fun i => st.pulseHistory sensor (st.pulseHistoryIdx sensor + i)

/-- Modelled from the spec: handling one classified V1 sync pulse at timestamp
`t` with width `wdt`.  When synchronized and the pulse falls outside the
expected window around `currentSync`, the machine reverts to clustering with a
fresh cluster (`currentSyncSum` and `nSyncPulses` are reset together).
Otherwise the pulse joins the current cluster when within the tolerance of the
last sync, or starts a new one; once the cluster reaches the minimum size, its
mean timestamp becomes the current sync estimate, the sync widths and the
frame width are updated and the current (base station, axis) is decoded from
the sync width. -/
def processSyncV1 (P : V1Params) (st : pulseProcessorV1State) (cls : pulseClass_e)
    (t wdt : Nat) : pulseProcessorV1State :=
  if st.synchronized && decide (P.syncWindow < TS_DIFF t st.currentSync) then
    { st with
      synchronized := false
      basestationsSynchronizedCount := 0
      currentSyncSum := t
      nSyncPulses := 1
      lastSync := t }
  else
    let inCluster := decide (TS_DIFF t st.lastSync ≤ P.clusterTolerance)
    let sum := if inCluster then st.currentSyncSum + t else t
    let n := if inCluster then st.nSyncPulses + 1 else 1
    if P.minClusterSize ≤ n then
      let avg := sum / n
      let bsax := P.decodeBsAxis wdt
      let sync0W := if cls = pulseClass_e.sync0 then wdt else st.currentSync0Width
      let sync1W := if cls = pulseClass_e.sync1 then wdt else st.currentSync1Width
      { st with
        currentSyncSum := sum, nSyncPulses := n, lastSync := t
        synchronized := true
        basestationsSynchronizedCount := max st.basestationsSynchronizedCount 1
        currentSync := avg
        currentSync0 := if cls = pulseClass_e.sync0 then avg else st.currentSync0
        currentSync0Width := sync0W
        currentSync1Width := sync1W
        currentSync0X := if cls = pulseClass_e.sync0 ∧ bsax.2 = 0 then avg else st.currentSync0X
        currentSync0Y := if cls = pulseClass_e.sync0 ∧ bsax.2 = 1 then avg else st.currentSync0Y
        currentSync1X := if cls = pulseClass_e.sync1 ∧ bsax.2 = 0 then avg else st.currentSync1X
        currentSync1Y := if cls = pulseClass_e.sync1 ∧ bsax.2 = 1 then avg else st.currentSync1Y
        frameWidth := Function.update st.frameWidth bsax.1
          (Function.update (st.frameWidth bsax.1) bsax.2 (P.frameWidthOf sync0W sync1W))
        currentBaseStation := bsax.1
        currentAxis := bsax.2 }
    else { st with currentSyncSum := sum, nSyncPulses := n, lastSync := t }

/-- Modelled from the spec: a sweep pulse's elapsed ticks since `currentSync0`
map linearly to an angle across the frame width of the current
(base station, axis). -/
def v1SweepAngle (st : pulseProcessorV1State) (t : Nat) : ℚ :=
  (TS_DIFF t st.currentSync0 : ℚ) / st.frameWidth st.currentBaseStation st.currentAxis

/-- Modelled from the spec: write one completed angle for sensor `sensor`,
base station `bs` and axis `ax` into the result. -/
def writeAngle (r : pulseProcessorResult_t) (sensor : Fin 4) (bs ax : Fin 2) (v : ℚ) :
    pulseProcessorResult_t :=
  { sensorMeasurements := fun s =>
      { baseStatonMeasurements := fun b =>
          if s = sensor ∧ b = bs then storeSweepAngle (r.meas s b) ax v
          else r.meas s b } }

/-- Modelled from the spec: handling one V1 sweep pulse.  When synchronized,
the sweep is stored, its angle is computed and written for the current
(base station, axis) and the call completes; otherwise only internal state is
kept. -/
def processSweepV1 (st : pulseProcessorV1State) (sensor : Fin 4) (t : Nat)
    (r : pulseProcessorResult_t) :
    pulseProcessorV1State × pulseProcessorResult_t × Option (Fin 2 × Fin 2) :=
  if st.synchronized then
    ({ st with
       sweeps := Function.update st.sweeps sensor
         { timestamp := t, state := SweepStorageState_t.sweepStorageStateValid }
       sweepDataStored := true },
     writeAngle r sensor st.currentBaseStation st.currentAxis (v1SweepAngle st t),
     some (st.currentBaseStation, st.currentAxis))
  else (st, r, none)

/-- Modelled from the spec: processing one V1 frame.  The pulse is pushed into
its sensor's history ring, classified, and dispatched: `unknown` pulses are
dropped, sync pulses drive the synchronization state machine, and sweep pulses
produce an angle when synchronized. -/
def processPulseV1 (P : V1Params) (st : pulseProcessorV1State)
    (f : pulseProcessorFrame_t) (r : pulseProcessorResult_t) :
    pulseProcessorV1State × pulseProcessorResult_t × Option (Fin 2 × Fin 2) :=
  let p : pulseProcessorPulse_t := { timestamp := f.timestamp, width := f.width }
  let st1 := pushHistory st f.sensor p
  match P.classify (historyList st f.sensor) p with
  | pulseClass_e.unknown => (st1, r, none)
  | pulseClass_e.sync0 => (processSyncV1 P st1 pulseClass_e.sync0 f.timestamp f.width, r, none)
  | pulseClass_e.sync1 => (processSyncV1 P st1 pulseClass_e.sync1 f.timestamp f.width, r, none)
  | pulseClass_e.sweep => processSweepV1 st1 f.sensor f.timestamp r

/-! ## Facade -/

/-- The processor state (`pulseProcessor_t`).  The source overlays the V1 and
V2 state in a union; following the spec's design note it is embedded as a
tagged variant over the two mutually exclusive storage layouts, selected at
construction and never switched. -/
inductive pulseProcessor_t where
  | v1 (st : pulseProcessorV1State)
  | v2 (st : pulseProcessorV2State)
deriving DecidableEq

/-- The tunable parameters of both pipelines. -/
structure PulseProcessorParams where
  v1 : V1Params
  v2 : V2Params

/-- Modelled from the spec: the single entry point `processPulse`
(`pulseProcessorProcessPulse_t` in the source).  Dispatches to the V1 or V2
pipeline according to the protocol the state instance was constructed for, and
returns the new state, the new result and the completed (base station, axis)
when a full angle datum became available. -/
def pulseProcessorProcessPulse (P : PulseProcessorParams) (s : pulseProcessor_t)
    (f : pulseProcessorFrame_t) (r : pulseProcessorResult_t) :
    pulseProcessor_t × pulseProcessorResult_t × Option (Fin 2 × Fin 2) :=
  match s with
  | .v1 st =>
      let step := processPulseV1 P.v1 st f r
      (.v1 step.1, step.2.1, step.2.2)
  | .v2 st =>
      let step := processPulseV2 P.v2 st f r
      (.v2 step.1, step.2.1, step.2.2)

/-- The sensor whose angle is certainly written when a call completes: the
frame's own sensor in V1, sensor 0 (always populated in a successful fold) in
V2. -/
def emittedSensor (s : pulseProcessor_t) (f : pulseProcessorFrame_t) : Fin 4 :=
  match s with
  | .v1 _ => f.sensor
  | .v2 _ => 0

/-- The angle written for `emittedSensor` when a call completes. -/
def emittedValue (s : pulseProcessor_t) (f : pulseProcessorFrame_t) : ℚ :=
  match s with
  | .v1 st => v1SweepAngle st f.timestamp
  | .v2 st => v2AngleFromOffset ((storeSlot st.pulseWorkspace f).sensors 0).offset

/-- A successful fold has a fresh sensor-0 slot and takes its sensor-0 offset
from the workspace. -/
theorem foldWorkspace_some (P : V2Params) (w : pulseProcessorV2PulseWorkspace_t)
    (blk : pulseProcessorV2SweepBlock_t) (h : foldWorkspace P w = some blk) :
    slotFresh P w 0 = true ∧ blk.offset 0 = (w.sensors 0).offset := by
  unfold foldWorkspace at h
  split at h
  · rename_i hcond
    cases h
    simp only [Bool.and_eq_true] at hcond
    exact ⟨hcond.1.1, by simp [hcond.1.1]⟩
  · cases h

/-- One `min` fact used below: a stored angle always leaves at least one
populated axis. -/
theorem storeSweepAngle_validCount_pos (m : pulseProcessorBaseStationMeasuremnt_t)
    (ax : Fin 2) (v : ℚ) : 1 ≤ (storeSweepAngle m ax v).validCount := by
  simp only [storeSweepAngle]
  omega

/-- Contract of one V2 step: no completion leaves the result untouched, a
completion has written the folded sensor-0 angle for the reported
(base station, axis). -/
theorem processPulseV2_contract (P : V2Params) (st : pulseProcessorV2State)
    (f : pulseProcessorFrame_t) (r : pulseProcessorResult_t) :
    ((processPulseV2 P st f r).2.2 = none → (processPulseV2 P st f r).2.1 = r)
      ∧ ∀ bs ax : Fin 2, (processPulseV2 P st f r).2.2 = some (bs, ax) →
          (((processPulseV2 P st f r).2.1).meas 0 bs).angles ax
              = v2AngleFromOffset ((storeSlot st.pulseWorkspace f).sensors 0).offset
            ∧ 1 ≤ (((processPulseV2 P st f r).2.1).meas 0 bs).validCount := by
  by_cases hcf : f.channelFound = true
  · cases hfold : foldWorkspace P (storeSlot st.pulseWorkspace f) with
    | none =>
        constructor
        · intro _
          simp [processPulseV2, hcf, hfold]
        · intro bs ax hout
          simp [processPulseV2, hcf, hfold] at hout
    | some blk =>
        obtain ⟨hfresh, hoff⟩ := foldWorkspace_some P _ blk hfold
        constructor
        · intro hnone
          simp [processPulseV2, hcf, hfold] at hnone
        · intro bs ax hout
          simp only [processPulseV2, hcf, if_true, hfold] at hout ⊢
          simp only [Option.some.injEq, Prod.mk.injEq] at hout
          obtain ⟨hbs, hax⟩ := hout
          subst hbs
          subst hax
          refine ⟨?_, ?_⟩
          · simp [emitResult, pulseProcessorResult_t.meas, hfresh, storeSweepAngle, hoff]
          · simp only [emitResult, pulseProcessorResult_t.meas]
            simp only [hfresh, and_true, if_pos rfl]
            exact storeSweepAngle_validCount_pos _ _ _
  · constructor
    · intro _
      simp [processPulseV2, hcf]
    · intro bs ax hout
      simp [processPulseV2, hcf] at hout

/-- Contract of one V1 step: no completion leaves the result untouched, a
completion has written the computed sweep angle of the frame's sensor for the
reported (base station, axis). -/
theorem processPulseV1_contract (P : V1Params) (st : pulseProcessorV1State)
    (f : pulseProcessorFrame_t) (r : pulseProcessorResult_t) :
    ((processPulseV1 P st f r).2.2 = none → (processPulseV1 P st f r).2.1 = r)
      ∧ ∀ bs ax : Fin 2, (processPulseV1 P st f r).2.2 = some (bs, ax) →
          (((processPulseV1 P st f r).2.1).meas f.sensor bs).angles ax
              = v1SweepAngle st f.timestamp
            ∧ 1 ≤ (((processPulseV1 P st f r).2.1).meas f.sensor bs).validCount := by
  unfold processPulseV1
  cases hc : P.classify (historyList st f.sensor) { timestamp := f.timestamp, width := f.width } with
  | unknown => simp [hc]
  | sync0 => simp [hc]
  | sync1 => simp [hc]
  | sweep =>
      simp only [hc]
      by_cases hs : st.synchronized = true
      · have hs1 : (pushHistory st f.sensor
            { timestamp := f.timestamp, width := f.width }).synchronized = true := hs
        constructor
        · intro hnone
          simp [processSweepV1, hs1] at hnone
        · intro bs ax hout
          simp only [processSweepV1, hs1, if_true] at hout ⊢
          simp only [Option.some.injEq, Prod.mk.injEq] at hout
          obtain ⟨hbs, hax⟩ := hout
          subst hbs
          subst hax
          refine ⟨?_, ?_⟩
          · simp [writeAngle, pulseProcessorResult_t.meas, storeSweepAngle, pushHistory,
              v1SweepAngle]
          · simp [writeAngle, pulseProcessorResult_t.meas, storeSweepAngle]
      · have hs0 : st.synchronized = false := by
          simpa using hs
        have hs1 : (pushHistory st f.sensor
            { timestamp := f.timestamp, width := f.width }).synchronized = false := hs0
        constructor
        · intro _
          simp [processSweepV1, hs1]
        · intro bs ax hout
          simp [processSweepV1, hs1] at hout

/-- Claim C2: `processPulse` reports a completed (base station, axis) exactly
when a full angle datum became available: on a completion the angle has been
written into the result for the reported base station and axis (with at least
one populated axis), and on no completion the result is unchanged, so the
caller must not read it as fresh. -/
theorem processPulse_matched_contract (P : PulseProcessorParams) (s : pulseProcessor_t)
    (f : pulseProcessorFrame_t) (r : pulseProcessorResult_t) :
    ((pulseProcessorProcessPulse P s f r).2.2 = none →
        (pulseProcessorProcessPulse P s f r).2.1 = r)
      ∧ ∀ bs ax : Fin 2, (pulseProcessorProcessPulse P s f r).2.2 = some (bs, ax) →
          (((pulseProcessorProcessPulse P s f r).2.1).meas (emittedSensor s f) bs).angles ax
              = emittedValue s f
            ∧ 1 ≤ (((pulseProcessorProcessPulse P s f r).2.1).meas
                (emittedSensor s f) bs).validCount := by
  cases s with
  | v1 st =>
      have h := processPulseV1_contract P.v1 st f r
      simpa [pulseProcessorProcessPulse, emittedSensor, emittedValue] using h
  | v2 st =>
      have h := processPulseV2_contract P.v2 st f r
      simpa [pulseProcessorProcessPulse, emittedSensor, emittedValue] using h

/-- Example V1 parameters used by witnesses: sweep pulses are shorter than 10
ticks, sync0 pulses 10–19, sync1 pulses 20–29, anything longer is unknown;
cluster tolerance 100, two samples per cluster, sync window 1000; the sync
width decodes base station `width / 2 mod 2` and axis `width mod 2`; the frame
width is the sum of the two sync widths. -/
def exampleV1Params : V1Params :=
  { classify := fun _ p =>
      if p.width < 10 then pulseClass_e.sweep
      else if p.width < 20 then pulseClass_e.sync0
      else if p.width < 30 then pulseClass_e.sync1
      else pulseClass_e.unknown
    clusterTolerance := 100
    minClusterSize := 2
    syncWindow := 1000
    decodeBsAxis := fun wdt => (⟨wdt / 2 % 2, by omega⟩, ⟨wdt % 2, by omega⟩)
    frameWidthOf := fun a b => ((a + b : Nat) : ℚ) }

/-- The initial V1 state: unsynchronized, empty history, zeroed estimates. -/
def emptyV1State : pulseProcessorV1State :=
  { synchronized := false
    basestationsSynchronizedCount := 0
    pulseHistory := fun _ _ => { timestamp := 0, width := 0 }
    pulseHistoryIdx := fun _ => 0
    lastSync := 0
    currentSyncSum := 0
    nSyncPulses := 0
    currentSync := 0
    currentSync0 := 0
    currentSync0Width := 0
    currentSync1Width := 0
    currentSync0X := 0
    currentSync0Y := 0
    currentSync1X := 0
    currentSync1Y := 0
    frameWidth := fun _ _ => 0
    currentBaseStation := 0
    currentAxis := 0
    sweeps := fun _ => { timestamp := 0, state := SweepStorageState_t.sweepStorageStateWaiting }
    sweepDataStored := false }

/-- Example parameters for the facade. -/
def exampleParams : PulseProcessorParams :=
  { v1 := exampleV1Params, v2 := exampleV2Params }

/-- Witness for `processPulse_matched_contract`: a decoded V2 pulse on channel
2 completes (base station 1, axis 0) with sensor 0's angle written; an
undecoded V2 pulse completes nothing and leaves the result unchanged; a V1
sweep pulse while unsynchronized completes nothing and leaves the result
unchanged. -/
theorem processPulse_matched_contract_witness :
    (((pulseProcessorProcessPulse exampleParams (pulseProcessor_t.v2 emptyV2State)
          exampleFrame0 exampleResult).2.1.meas
            (emittedSensor (pulseProcessor_t.v2 emptyV2State) exampleFrame0) 1).angles 0
          = emittedValue (pulseProcessor_t.v2 emptyV2State) exampleFrame0
        ∧ 1 ≤ ((pulseProcessorProcessPulse exampleParams (pulseProcessor_t.v2 emptyV2State)
            exampleFrame0 exampleResult).2.1.meas
              (emittedSensor (pulseProcessor_t.v2 emptyV2State) exampleFrame0) 1).validCount)
      ∧ (pulseProcessorProcessPulse exampleParams (pulseProcessor_t.v2 emptyV2State)
          exampleFrameNoChannel exampleResult).2.1 = exampleResult
      ∧ (pulseProcessorProcessPulse exampleParams (pulseProcessor_t.v1 emptyV1State)
          exampleFrame0 exampleResult).2.1 = exampleResult :=
  ⟨(processPulse_matched_contract exampleParams (pulseProcessor_t.v2 emptyV2State)
      exampleFrame0 exampleResult).2 1 0 (by rfl),
   (processPulse_matched_contract exampleParams (pulseProcessor_t.v2 emptyV2State)
      exampleFrameNoChannel exampleResult).1 (by rfl),
   (processPulse_matched_contract exampleParams (pulseProcessor_t.v1 emptyV1State)
      exampleFrame0 exampleResult).1 (by rfl)⟩

/-! ## The validCount invariant -/

/-- The measurement invariant: every measurement's `validCount` is one of
0, 1, 2 (`PULSE_PROCESSOR_N_SWEEPS = 2` axes can be populated). -/
def resultInv (r : pulseProcessorResult_t) : Prop :=
  ∀ (s : Fin 4) (b : Fin 2), (r.meas s b).validCount ≤ 2

instance (r : pulseProcessorResult_t) : Decidable (resultInv r) :=
  inferInstanceAs (Decidable (∀ (s : Fin 4) (b : Fin 2), (r.meas s b).validCount ≤ 2))

theorem pulseProcessorClear_inv (r : pulseProcessorResult_t) (bs : Fin 2)
    (h : resultInv r) : resultInv (pulseProcessorClear r bs) := by
  intro s b
  by_cases hb : b = bs
  · simp [pulseProcessorClear, pulseProcessorResult_t.meas, hb]
  · simp only [pulseProcessorClear, pulseProcessorResult_t.meas, if_neg hb]
    exact h s b

theorem writeAngle_inv (r : pulseProcessorResult_t) (sn : Fin 4) (bs ax : Fin 2) (v : ℚ)
    (h : resultInv r) : resultInv (writeAngle r sn bs ax v) := by
  intro s b
  by_cases hc : s = sn ∧ b = bs
  · simp only [writeAngle, pulseProcessorResult_t.meas, if_pos hc, storeSweepAngle]
    omega
  · simp only [writeAngle, pulseProcessorResult_t.meas, if_neg hc]
    exact h s b

theorem emitResult_inv (P : V2Params) (w : pulseProcessorV2PulseWorkspace_t)
    (blk : pulseProcessorV2SweepBlock_t) (r : pulseProcessorResult_t)
    (h : resultInv r) : resultInv (emitResult P w blk r) := by
  have hbase : resultInv (if channelAxis blk.channel = 0
      then pulseProcessorClear r (channelBaseStation blk.channel) else r) := by
    split
    · exact pulseProcessorClear_inv r _ h
    · exact h
  intro s b
  simp only [emitResult, pulseProcessorResult_t.meas]
  by_cases hc : b = channelBaseStation blk.channel ∧ slotFresh P w s = true
  · rw [if_pos hc]
    simp only [storeSweepAngle]
    omega
  · rw [if_neg hc]
    exact hbase s b

theorem processPulseV2_inv (P : V2Params) (st : pulseProcessorV2State)
    (f : pulseProcessorFrame_t) (r : pulseProcessorResult_t)
    (h : resultInv r) : resultInv (processPulseV2 P st f r).2.1 := by
  by_cases hcf : f.channelFound = true
  · cases hfold : foldWorkspace P (storeSlot st.pulseWorkspace f) with
    | none => simpa [processPulseV2, hcf, hfold] using h
    | some blk =>
        have he := emitResult_inv P (storeSlot st.pulseWorkspace f) blk r h
        simpa [processPulseV2, hcf, hfold] using he
  · simpa [processPulseV2, hcf] using h

theorem processPulseV1_inv (P : V1Params) (st : pulseProcessorV1State)
    (f : pulseProcessorFrame_t) (r : pulseProcessorResult_t)
    (h : resultInv r) : resultInv (processPulseV1 P st f r).2.1 := by
  unfold processPulseV1
  cases hc : P.classify (historyList st f.sensor) { timestamp := f.timestamp, width := f.width } with
  | unknown => simpa [hc] using h
  | sync0 => simpa [hc] using h
  | sync1 => simpa [hc] using h
  | sweep =>
      simp only [hc]
      by_cases hs : (pushHistory st f.sensor
          { timestamp := f.timestamp, width := f.width }).synchronized = true
      · have hw := writeAngle_inv r f.sensor
          (pushHistory st f.sensor { timestamp := f.timestamp, width := f.width }).currentBaseStation
          (pushHistory st f.sensor { timestamp := f.timestamp, width := f.width }).currentAxis
          (v1SweepAngle (pushHistory st f.sensor { timestamp := f.timestamp, width := f.width })
            f.timestamp) h
        simpa [processSweepV1, hs] using hw
      · simp only [Bool.not_eq_true] at hs
        simpa [processSweepV1, hs] using h

/-- Claim C8: every operation of the core keeps each measurement's
`validCount` in {0, 1, 2}: `clear` (which zeroes it for the cleared base
station), `applyCalibration` (which preserves every `validCount` exactly,
handling partial measurements with `validCount = 1` like complete ones rather
than as errors) and `processPulse` all preserve the invariant; and sweep
storage populates the axes one at a time, so a cleared measurement has 0
populated axes and each stored axis raises the count by one up to 2. -/
theorem validCount_invariant (P : PulseProcessorParams) (calib : Fin 2 → Fin 2 → ℚ → ℚ)
    (s : pulseProcessor_t) (f : pulseProcessorFrame_t)
    (r : pulseProcessorResult_t) (bs : Fin 2) (h : resultInv r) :
    resultInv (pulseProcessorClear r bs)
      ∧ (∀ (sn : Fin 4) (b : Fin 2),
          ((pulseProcessorApplyCalibration calib r bs).meas sn b).validCount
            = (r.meas sn b).validCount)
      ∧ resultInv (pulseProcessorApplyCalibration calib r bs)
      ∧ resultInv (pulseProcessorProcessPulse P s f r).2.1
      ∧ (∀ sn : Fin 4, ((pulseProcessorClear r bs).meas sn bs).validCount = 0)
      ∧ (∀ (m : pulseProcessorBaseStationMeasuremnt_t) (ax : Fin 2) (v : ℚ),
          (m.validCount = 0 → (storeSweepAngle m ax v).validCount = 1)
            ∧ (m.validCount = 1 → (storeSweepAngle m ax v).validCount = 2)) := by
  have hcal : ∀ (sn : Fin 4) (b : Fin 2),
      ((pulseProcessorApplyCalibration calib r bs).meas sn b).validCount
        = (r.meas sn b).validCount := by
    intro sn b
    by_cases hc : b = bs ∧ 1 ≤ ((r.sensorMeasurements sn).baseStatonMeasurements b).validCount
    · simp [pulseProcessorApplyCalibration, pulseProcessorResult_t.meas, if_pos hc]
    · simp [pulseProcessorApplyCalibration, pulseProcessorResult_t.meas, if_neg hc]
  refine ⟨pulseProcessorClear_inv r bs h, hcal, ?_, ?_, ?_, ?_⟩
  · intro sn b
    rw [hcal sn b]
    exact h sn b
  · cases s with
    | v1 st => simpa [pulseProcessorProcessPulse] using processPulseV1_inv P.v1 st f r h
    | v2 st => simpa [pulseProcessorProcessPulse] using processPulseV2_inv P.v2 st f r h
  · intro sn
    simp [pulseProcessorClear, pulseProcessorResult_t.meas]
  · intro m ax v
    constructor
    · intro h0
      simp [storeSweepAngle, h0]
    · intro h1
      simp [storeSweepAngle, h1]

/-- Witness for `validCount_invariant` on the example result (whose
`validCount`s are 1 and 0): clearing, calibrating and processing a pulse keep
every `validCount` at most 2. -/
theorem validCount_invariant_witness :
    resultInv (pulseProcessorClear exampleResult 0)
      ∧ resultInv (pulseProcessorApplyCalibration (fun _ _ v => v) exampleResult 0)
      ∧ resultInv (pulseProcessorProcessPulse exampleParams (pulseProcessor_t.v2 emptyV2State)
          exampleFrame0 exampleResult).2.1 :=
  ⟨(validCount_invariant exampleParams (fun _ _ v => v) (pulseProcessor_t.v2 emptyV2State)
      exampleFrame0 exampleResult 0 (by decide)).1,
   (validCount_invariant exampleParams (fun _ _ v => v) (pulseProcessor_t.v2 emptyV2State)
      exampleFrame0 exampleResult 0 (by decide)).2.2.1,
   (validCount_invariant exampleParams (fun _ _ v => v) (pulseProcessor_t.v2 emptyV2State)
      exampleFrame0 exampleResult 0 (by decide)).2.2.2.1⟩
